import Mathlib

/-
Verification of src/portfolio.js: a contact-form submission handler.

The script attaches three DOM event listeners:
  * a submit listener on the form that calls preventDefault, snapshots the
    form into a FormData body, issues a POST via fetch to form.action with an
    Accept: application/json header, and then either resets the form and
    shows the modal (response.ok), alerts an HTTP-failure message (non-ok
    status), or alerts a network-failure message (rejected promise);
  * a click listener on the close button that sets the modal display to
    "none";
  * a click listener on the window that sets the modal display to "none"
    exactly when the click target is the modal element itself.

We embed the page state (form fields plus the modal's display value) and each
handler as a pure function.  The submit handler is embedded as a trace of
observable actions (preventDefault, the fetch request, form reset, display
change, alert) plus an interpreter folding the actions over the page state,
so that ordering, the issued requests, and the shown alerts are all visible
to the theorems.
-/

namespace Portfolio

/-- A form field: its name, its current value, and the default value that
`form.reset()` restores. -/
structure Field where
  name : String
  value : String
  defaultValue : String
deriving Repr, DecidableEq

/-- The contact form element: its `action` URL and its fields. -/
structure Form where
  action : String
  fields : List Field
deriving Repr, DecidableEq

/-- The page state the script mutates: the contact form and the modal
element's `style.display` value. -/
structure PageState where
  form : Form
  overlayDisplay : String
deriving Repr, DecidableEq

/-- `new FormData(form)`: the name/value snapshot of the form's current
fields. -/
def formDataOf (f : Form) : List (String × String) :=
  f.fields.map (fun fl => (fl.name, fl.value))

/-- `form.reset()`: every field goes back to its default value. -/
def resetForm (f : Form) : Form :=
  { f with fields := f.fields.map (fun fl => { fl with value := fl.defaultValue }) }

/-- An HTTP request as issued by `fetch`. -/
structure Request where
  url : String
  method : String
  body : List (String × String)
  headers : List (String × String)
deriving Repr, DecidableEq

/-- The outcome of the fetch promise: resolved with a response (status and
body), or rejected with a transport error. -/
inductive FetchOutcome where
  | resolved (status : Nat) (body : String)
  | rejected
deriving Repr, DecidableEq

/-- `response.ok`: true exactly when the status is in the 2xx range. -/
def responseOk (status : Nat) : Bool :=
  200 ≤ status && status ≤ 299

/-- The observable actions a handler performs, in order. -/
inductive Action where
  | preventDefault
  | sendRequest (r : Request)
  | formReset
  | setDisplay (v : String)
  | alertShown (msg : String)
deriving Repr, DecidableEq

/-- The alert text for an HTTP-level failure (non-ok status). -/
def httpFailMsg : String := "送信に失敗しました。"

/-- The alert text for a transport-level failure (rejected fetch). -/
def netFailMsg : String := "通信エラーが発生しました。"

/-- The action trace of the submit listener (src/portfolio.js lines 5-28)
given the page state at submit time and the fetch outcome. -/
def submitTrace (st : PageState) (o : FetchOutcome) : List Action :=
  let req : Request :=
    { url := st.form.action
      method := "POST"
      body := formDataOf st.form
      headers := [("Accept", "application/json")] }
  [Action.preventDefault, Action.sendRequest req] ++
    match o with
    | .resolved status _body =>
        if responseOk status then
          [Action.formReset, Action.setDisplay "block"]
        else
          [Action.alertShown httpFailMsg]
    | .rejected => [Action.alertShown netFailMsg]

/-- Interpretation of a single action on the page state.  preventDefault,
sending a request, and alerting do not change the page state. -/
def applyAction (st : PageState) : Action → PageState
  | .preventDefault => st
  | .sendRequest _ => st
  | .formReset => { st with form := resetForm st.form }
  | .setDisplay v => { st with overlayDisplay := v }
  | .alertShown _ => st

/-- Run a list of actions over the page state, in order. -/
def runActions (st : PageState) (acts : List Action) : PageState :=
  acts.foldl applyAction st

/-- The page state after the submit listener (and its then/catch handlers)
has completed. -/
def submitFinal (st : PageState) (o : FetchOutcome) : PageState :=
  runActions st (submitTrace st o)

/-- The alerts shown during a trace, in order. -/
def alertsOf (acts : List Action) : List String :=
  acts.filterMap (fun a => match a with | .alertShown m => some m | _ => none)

/-- The HTTP requests issued during a trace, in order. -/
def requestsOf (acts : List Action) : List Request :=
  acts.filterMap (fun a => match a with | .sendRequest r => some r | _ => none)

/-- Close-button click listener (src/portfolio.js lines 30-32): sets the
modal display to "none" unconditionally. -/
def onCloseClick (st : PageState) : PageState :=
  { st with overlayDisplay := "none" }

/-- Window click listener (src/portfolio.js lines 34-38): hides the modal
exactly when the click target is the modal element itself.  `target` and
`modalElem` are DOM element identities, compared as `e.target === modal`. -/
def onWindowClick (target modalElem : Nat) (st : PageState) : PageState :=
  if target = modalElem then { st with overlayDisplay := "none" } else st

/-- The abstract overlay visibility of the spec's state machine. -/
inductive OverlayVis where
  | Hidden
  | Visible
deriving Repr, DecidableEq

/-- Abstraction from the modal's display value: "none" renders nothing
(Hidden); any other display value renders the overlay (Visible). -/
def visOf (d : String) : OverlayVis :=
  if d = "none" then OverlayVis.Hidden else OverlayVis.Visible

/-- Modelled from the spec: the modal's initial display value is set by the
page's HTML/CSS, which is not part of src/; the spec fixes the initial
overlay state as Hidden. -/
def initialOverlayDisplay : String := "none"

/-- The events the three listeners react to. -/
inductive Event where
  | submit (o : FetchOutcome)
  | closeClick
  | windowClick (target : Nat)
deriving Repr, DecidableEq

/-- One step of the page under an event, dispatching to the listener the
event triggers.  `modalElem` is the modal element's DOM identity. -/
def pageStep (modalElem : Nat) (st : PageState) : Event → PageState
  | .submit o => submitFinal st o
  | .closeClick => onCloseClick st
  | .windowClick t => onWindowClick t modalElem st

/-- A sample page state used to instantiate witnesses. -/
def sampleForm : Form :=
  { action := "https://example.com/send"
    fields := [{ name := "email", value := "a@b.example", defaultValue := "" }] }

/-- A sample page state with the overlay hidden. -/
def sampleState : PageState :=
  { form := sampleForm, overlayDisplay := "none" }

/-- Helper: the submit run on an ok response resets the form and shows the
modal. -/
theorem submitFinal_ok (st : PageState) (status : Nat) (body : String)
    (h : responseOk status = true) :
    submitFinal st (FetchOutcome.resolved status body) =
      { form := resetForm st.form, overlayDisplay := "block" } := by
  simp [submitFinal, submitTrace, runActions, applyAction, h]

/-- Helper: the submit run on a non-ok response leaves the state unchanged. -/
theorem submitFinal_notOk (st : PageState) (status : Nat) (body : String)
    (h : responseOk status = false) :
    submitFinal st (FetchOutcome.resolved status body) = st := by
  simp [submitFinal, submitTrace, runActions, applyAction, h]

/-- Helper: the submit run on a rejected fetch leaves the state unchanged. -/
theorem submitFinal_rejected (st : PageState) :
    submitFinal st FetchOutcome.rejected = st := by
  simp [submitFinal, submitTrace, runActions, applyAction]

/-- Helper: after a reset every field holds its default value. -/
theorem resetForm_fields_default (f : Form) :
    ((resetForm f).fields.all (fun fl => fl.value == fl.defaultValue)) = true := by
  simp [resetForm, List.all_eq_true]

/-- C1: for every submit event whose fetch resolves with a 2xx (ok) status,
the handler resets all form fields to their default values and sets the
overlay's display to "block", i.e. the overlay becomes visible. -/
theorem submit_success_resets_form_and_shows_overlay
    (st : PageState) (status : Nat) (body : String)
    (h : responseOk status = true) :
    (submitFinal st (FetchOutcome.resolved status body)).form = resetForm st.form ∧
    ((submitFinal st (FetchOutcome.resolved status body)).form.fields.all
      (fun fl => fl.value == fl.defaultValue)) = true ∧
    (submitFinal st (FetchOutcome.resolved status body)).overlayDisplay = "block" ∧
    visOf (submitFinal st (FetchOutcome.resolved status body)).overlayDisplay
      = OverlayVis.Visible := by
  rw [submitFinal_ok st status body h]
  refine ⟨rfl, resetForm_fields_default st.form, rfl, ?_⟩
  simp [visOf]

/-- C1 witness: a concrete 200 response on the sample state. -/
theorem submit_success_witness :
    responseOk 200 = true ∧
    ((submitFinal sampleState (FetchOutcome.resolved 200 "")).form
        = resetForm sampleState.form ∧
      ((submitFinal sampleState (FetchOutcome.resolved 200 "")).form.fields.all
        (fun fl => fl.value == fl.defaultValue)) = true ∧
      (submitFinal sampleState (FetchOutcome.resolved 200 "")).overlayDisplay = "block" ∧
      visOf (submitFinal sampleState (FetchOutcome.resolved 200 "")).overlayDisplay
        = OverlayVis.Visible) :=
  ⟨by decide, submit_success_resets_form_and_shows_overlay sampleState 200 "" (by decide)⟩

/-- C2: for every submit event whose fetch resolves with a non-ok status,
the handler shows exactly the alert "送信に失敗しました。" and leaves the
page state (form fields and overlay display) unchanged. -/
theorem submit_http_failure_alerts_and_preserves
    (st : PageState) (status : Nat) (body : String)
    (h : responseOk status = false) :
    alertsOf (submitTrace st (FetchOutcome.resolved status body)) = [httpFailMsg] ∧
    submitFinal st (FetchOutcome.resolved status body) = st := by
  refine ⟨?_, submitFinal_notOk st status body h⟩
  simp [alertsOf, submitTrace, h]

/-- C2 witness: a concrete 500 response on the sample state. -/
theorem submit_http_failure_witness :
    responseOk 500 = false ∧
    (alertsOf (submitTrace sampleState (FetchOutcome.resolved 500 "")) = [httpFailMsg] ∧
      submitFinal sampleState (FetchOutcome.resolved 500 "") = sampleState) :=
  ⟨by decide, submit_http_failure_alerts_and_preserves sampleState 500 "" (by decide)⟩

/-- C3: for every submit event whose fetch rejects, the handler shows
exactly the alert "通信エラーが発生しました。" and leaves the page state
(form fields and overlay display) unchanged. -/
theorem submit_network_failure_alerts_and_preserves (st : PageState) :
    alertsOf (submitTrace st FetchOutcome.rejected) = [netFailMsg] ∧
    submitFinal st FetchOutcome.rejected = st := by
  refine ⟨?_, submitFinal_rejected st⟩
  simp [alertsOf, submitTrace]

/-- C4: for every submit event, regardless of the fetch outcome, the very
first action of the handler is preventDefault. -/
theorem submit_prevents_default_first (st : PageState) (o : FetchOutcome) :
    (submitTrace st o).head? = some Action.preventDefault := by
  cases o <;> simp [submitTrace]

/-- C5: the overlay follows the {Hidden, Visible} state machine: the initial
state is Hidden; Hidden becomes Visible only through a submit with an ok
response; close-button clicks and backdrop clicks (target = modal) drive the
overlay to Hidden, and those are the only events taking Visible to Hidden;
window clicks on any other target, non-ok submits and rejected submits leave
the overlay display unchanged (self-loops). -/
theorem overlay_state_machine (modalElem : Nat) (st : PageState) :
    visOf initialOverlayDisplay = OverlayVis.Hidden ∧
    (∀ e : Event, visOf st.overlayDisplay = OverlayVis.Hidden →
      visOf (pageStep modalElem st e).overlayDisplay = OverlayVis.Visible →
      ∃ status body, e = Event.submit (FetchOutcome.resolved status body) ∧
        responseOk status = true) ∧
    visOf (pageStep modalElem st Event.closeClick).overlayDisplay = OverlayVis.Hidden ∧
    visOf (pageStep modalElem st (Event.windowClick modalElem)).overlayDisplay
      = OverlayVis.Hidden ∧
    (∀ e : Event, visOf st.overlayDisplay = OverlayVis.Visible →
      visOf (pageStep modalElem st e).overlayDisplay = OverlayVis.Hidden →
      e = Event.closeClick ∨ e = Event.windowClick modalElem) ∧
    (∀ target, target ≠ modalElem →
      pageStep modalElem st (Event.windowClick target) = st) ∧
    (∀ status body, responseOk status = false →
      (pageStep modalElem st
        (Event.submit (FetchOutcome.resolved status body))).overlayDisplay
        = st.overlayDisplay) ∧
    (pageStep modalElem st (Event.submit FetchOutcome.rejected)).overlayDisplay
      = st.overlayDisplay := by
  refine ⟨by decide, ?_, ?_, ?_, ?_, ?_, ?_, ?_⟩
  · intro e hhid hvis
    cases e with
    | submit o =>
      cases o with
      | resolved status body =>
        cases hok : responseOk status with
        | true => exact ⟨status, body, rfl, hok⟩
        | false =>
          rw [pageStep, submitFinal_notOk st status body hok] at hvis
          rw [hhid] at hvis
          cases hvis
      | rejected =>
        rw [pageStep, submitFinal_rejected st] at hvis
        rw [hhid] at hvis
        cases hvis
    | closeClick =>
      simp [pageStep, onCloseClick, visOf] at hvis
    | windowClick t =>
      by_cases ht : t = modalElem
      · simp [pageStep, onWindowClick, ht, visOf] at hvis
      · simp [pageStep, onWindowClick, ht] at hvis
        rw [hhid] at hvis
        cases hvis
  · simp [pageStep, onCloseClick, visOf]
  · simp [pageStep, onWindowClick, visOf]
  · intro e hvis hhid
    cases e with
    | submit o =>
      cases o with
      | resolved status body =>
        cases hok : responseOk status with
        | true =>
          rw [pageStep, submitFinal_ok st status body hok] at hhid
          simp [visOf] at hhid
        | false =>
          rw [pageStep, submitFinal_notOk st status body hok] at hhid
          rw [hvis] at hhid
          cases hhid
      | rejected =>
        rw [pageStep, submitFinal_rejected st] at hhid
        rw [hvis] at hhid
        cases hhid
    | closeClick => exact Or.inl rfl
    | windowClick t =>
      by_cases ht : t = modalElem
      · exact Or.inr (by rw [ht])
      · simp [pageStep, onWindowClick, ht] at hhid
        rw [hvis] at hhid
        cases hhid
  · intro target ht
    simp [pageStep, onWindowClick, ht]
  · intro status body hok
    rw [pageStep, submitFinal_notOk st status body hok]
  · rw [pageStep, submitFinal_rejected st]

/-- C5 witness: the state machine instantiated on the sample state, taking
the Hidden-to-Visible direction at a concrete ok submission. -/
theorem overlay_state_machine_witness :
    visOf sampleState.overlayDisplay = OverlayVis.Hidden ∧
    (∃ status body,
      Event.submit (FetchOutcome.resolved 204 "") =
        Event.submit (FetchOutcome.resolved status body) ∧
      responseOk status = true) ∧
    (∀ target, target ≠ 0 → pageStep 0 sampleState (Event.windowClick target) = sampleState) :=
  ⟨by decide,
    (overlay_state_machine 0 sampleState).2.1 (Event.submit (FetchOutcome.resolved 204 ""))
      (by decide)
      (by rw [pageStep, submitFinal_ok sampleState 204 "" (by decide)]; decide),
    (overlay_state_machine 0 sampleState).2.2.2.2.2.1⟩

/-- C6: every close-button click sets the overlay display to "none" and
leaves the form untouched; when the overlay is already hidden the click is a
no-op on the whole page state. -/
theorem close_click_hides_overlay (st : PageState) :
    (onCloseClick st).overlayDisplay = "none" ∧
    (onCloseClick st).form = st.form ∧
    (st.overlayDisplay = "none" → onCloseClick st = st) := by
  refine ⟨rfl, rfl, ?_⟩
  intro h
  cases st with
  | mk f d => simp [onCloseClick] at h ⊢; exact h.symm

/-- C6 witness: closing while already hidden on the sample state. -/
theorem close_click_witness :
    sampleState.overlayDisplay = "none" ∧ onCloseClick sampleState = sampleState :=
  ⟨rfl, (close_click_hides_overlay sampleState).2.2 rfl⟩

/-- C7: a window click hides the overlay exactly when its target is the
modal element itself; for every other target (descendants included) the
page state is unchanged. -/
theorem window_click_hides_iff_target_is_modal
    (target modalElem : Nat) (st : PageState) :
    (target = modalElem →
      (onWindowClick target modalElem st).overlayDisplay = "none" ∧
      (onWindowClick target modalElem st).form = st.form) ∧
    (target ≠ modalElem → onWindowClick target modalElem st = st) := by
  constructor
  · intro h
    simp [onWindowClick, h]
  · intro h
    simp [onWindowClick, h]

/-- C7 witness: a click on the modal hides it, a click elsewhere is a no-op,
on the sample state. -/
theorem window_click_witness :
    ((onWindowClick 0 0 sampleState).overlayDisplay = "none" ∧
      (onWindowClick 0 0 sampleState).form = sampleState.form) ∧
    onWindowClick 1 0 sampleState = sampleState :=
  ⟨(window_click_hides_iff_target_is_modal 0 0 sampleState).1 rfl,
    (window_click_hides_iff_target_is_modal 1 0 sampleState).2 (by decide)⟩

/-- C8: every submit event issues exactly one request, a POST to the form's
action URL carrying the form-field snapshot as body with an
Accept: application/json header, on every outcome (so no retry happens);
and neither the trace nor the final state depends on the response body. -/
theorem submit_issues_single_post (st : PageState) (o : FetchOutcome) :
    requestsOf (submitTrace st o) =
      [{ url := st.form.action
         method := "POST"
         body := formDataOf st.form
         headers := [("Accept", "application/json")] }] ∧
    (∀ status b1 b2,
      submitTrace st (FetchOutcome.resolved status b1) =
        submitTrace st (FetchOutcome.resolved status b2)) ∧
    (∀ status b1 b2,
      submitFinal st (FetchOutcome.resolved status b1) =
        submitFinal st (FetchOutcome.resolved status b2)) := by
  refine ⟨?_, fun status b1 b2 => rfl, fun status b1 b2 => rfl⟩
  cases o with
  | resolved status body =>
    cases hok : responseOk status with
    | true => simp [requestsOf, submitTrace, hok]
    | false => simp [requestsOf, submitTrace, hok]
  | rejected => simp [requestsOf, submitTrace]

/-- C9: every submission attempt produces exactly one of the three outcomes:
either the success branch runs (form reset present in the trace) with no
failure alert, or exactly the HTTP-failure alert is shown, or exactly the
network-failure alert is shown. -/
theorem submit_exactly_one_outcome (st : PageState) (o : FetchOutcome) :
    (Action.formReset ∈ submitTrace st o ∧
      Action.alertShown httpFailMsg ∉ submitTrace st o ∧
      Action.alertShown netFailMsg ∉ submitTrace st o) ∨
    (Action.formReset ∉ submitTrace st o ∧
      Action.alertShown httpFailMsg ∈ submitTrace st o ∧
      Action.alertShown netFailMsg ∉ submitTrace st o) ∨
    (Action.formReset ∉ submitTrace st o ∧
      Action.alertShown httpFailMsg ∉ submitTrace st o ∧
      Action.alertShown netFailMsg ∈ submitTrace st o) := by
  cases o with
  | resolved status body =>
    cases hok : responseOk status with
    | true =>
      refine Or.inl ⟨?_, ?_, ?_⟩ <;> simp [submitTrace, hok]
    | false =>
      refine Or.inr (Or.inl ⟨?_, ?_, ?_⟩) <;>
        simp [submitTrace, hok, httpFailMsg, netFailMsg]
  | rejected =>
    refine Or.inr (Or.inr ⟨?_, ?_, ?_⟩) <;>
      simp [submitTrace, httpFailMsg, netFailMsg]

/-- C10: all three handlers are deterministic: two runs from equal page
states, equal fetch outcomes and equal click targets produce equal traces
(hence equal requests and alerts) and equal final page states. -/
theorem handlers_deterministic
    (st1 st2 : PageState) (o1 o2 : FetchOutcome) (t1 t2 m1 m2 : Nat)
    (hst : st1 = st2) (ho : o1 = o2) (ht : t1 = t2) (hm : m1 = m2) :
    submitTrace st1 o1 = submitTrace st2 o2 ∧
    submitFinal st1 o1 = submitFinal st2 o2 ∧
    onCloseClick st1 = onCloseClick st2 ∧
    onWindowClick t1 m1 st1 = onWindowClick t2 m2 st2 := by
  subst hst; subst ho; subst ht; subst hm
  exact ⟨rfl, rfl, rfl, rfl⟩

/-- C10 witness: determinism instantiated on the sample state with a
rejected fetch and a backdrop click. -/
theorem handlers_deterministic_witness :
    submitTrace sampleState FetchOutcome.rejected
      = submitTrace sampleState FetchOutcome.rejected ∧
    submitFinal sampleState FetchOutcome.rejected
      = submitFinal sampleState FetchOutcome.rejected ∧
    onCloseClick sampleState = onCloseClick sampleState ∧
    onWindowClick 0 0 sampleState = onWindowClick 0 0 sampleState :=
  handlers_deterministic sampleState sampleState FetchOutcome.rejected
    FetchOutcome.rejected 0 0 0 0 rfl rfl rfl rfl

end Portfolio
